import Mathlib

/-!
# Verification of homebridge-openclaw (src/index.js)

A shallow embedding of the pure core of the plugin: JavaScript runtime
values as they flow through the plugin's control path, the action
resolver (`resolveAction` / `clamp`), the device-type classifier
(`mapType`), the catalog normalizer (`parseAccessories`), the inbound
API-token resolver (`resolveApiToken`), the Config-UI-X client's
auth-mode selection and token refresh (`UiClient._detectAuthMode` /
`UiClient.token`), and the two control route handlers.

External collaborators (the filesystem, the environment, the crypto
library's HMAC, and the upstream Config UI X HTTP API) are passed in as
explicit parameters; all plugin logic is translated directly from the
source.
-/

namespace OpenClaw

/-- A JavaScript number as it occurs on the plugin's control path: either
`NaN` (produced by failed coercions) or a finite value.  JSON input never
carries `NaN` or infinities, so finite values are modelled by `ℚ`. -/
inductive JsNum where
  | nan : JsNum
  | num : ℚ → JsNum
deriving DecidableEq, Repr

/-- The subset of JavaScript values that reach the plugin's pure logic
from parsed JSON bodies: `undefined`, `null`, booleans, (finite) numbers,
strings, and objects — of which the code only ever reads the `hue` and
`saturation` fields (in `resolveAction`'s `"color"` case), so an object is
modelled by those two optional fields. -/
inductive JsValue where
  | undef : JsValue
  | null : JsValue
  | bool : Bool → JsValue
  | num : ℚ → JsValue
  | str : String → JsValue
  | obj : Option JsValue → Option JsValue → JsValue

/-- JavaScript truthiness (`Boolean(v)` / `if (v)`): `undefined`, `null`,
`false`, `0` and `""` are falsy; objects are always truthy. -/
def truthy : JsValue → Bool
  | .undef => false
  | .null => false
  | .bool b => b
  | .num q => decide (q ≠ 0)
  | .str s => decide (s ≠ "")
  | .obj _ _ => true

/-- The whitespace characters stripped by JavaScript's `String.prototype.trim`
(ASCII fragment: space, tab, line feed, carriage return, vertical tab,
form feed). -/
def isWs (c : Char) : Bool :=
  c = ' ' || c = '\t' || c = '\n' || c = '\r' || c = '\x0b' || c = '\x0c'

/-- Strip leading and trailing whitespace from a character list. -/
def trimList (l : List Char) : List Char :=
  ((l.dropWhile isWs).reverse.dropWhile isWs).reverse

/-- Embeds JavaScript's `String.prototype.trim`. -/
def jsTrim (s : String) : String := ⟨trimList s.data⟩

/-- Embeds JavaScript's `String.prototype.toLowerCase` (ASCII fragment). -/
def jsToLower (s : String) : String := ⟨s.data.map Char.toLower⟩

/-- Embeds JavaScript's `String.prototype.slice(0, n)`. -/
def jsSlice (s : String) (n : Nat) : String := ⟨s.data.take n⟩

/-- Embeds JavaScript's `String.prototype.includes(sub)`. -/
def jsIncludes (s sub : String) : Bool := decide (sub.data <:+: s.data)

/-- ASCII decimal digit test. -/
def isDigitChar (c : Char) : Bool := '0' ≤ c && c ≤ '9'

/-- Value of a list of decimal digits, most significant first. -/
def digitsToNat (l : List Char) : Nat :=
  l.foldl (fun a c => a * 10 + (c.toNat - 48)) 0

/-- Parse an unsigned decimal literal (digits with an optional single
point) as a rational; anything else is `none` (JavaScript `NaN`). -/
def parseUnsignedDec (l : List Char) : Option ℚ :=
  match l.splitOn '.' with
  | [ip] => if ip ≠ [] && ip.all isDigitChar then some (digitsToNat ip) else none
  | [ip, fp] =>
    if (ip ≠ [] || fp ≠ []) && ip.all isDigitChar && fp.all isDigitChar then
      some ((digitsToNat ip : ℚ) + (digitsToNat fp : ℚ) / ((10 : ℚ) ^ fp.length))
    else none
  | _ => none

/-- Embeds the JavaScript builtin `Number(string)` (an external runtime
primitive) on the decimal literals this plugin's JSON-sourced strings can
take: whitespace is trimmed, the empty string is `0`, an optionally
signed decimal literal parses to its value, and any other string is
`NaN`. -/
def strToNumber (s : String) : JsNum :=
  match trimList s.data with
  | [] => .num 0
  | '+' :: rest =>
    match parseUnsignedDec rest with
    | some q => .num q
    | none => .nan
  | '-' :: rest =>
    match parseUnsignedDec rest with
    | some q => .num (-q)
    | none => .nan
  | l =>
    match parseUnsignedDec l with
    | some q => .num q
    | none => .nan

/-- Embeds the JavaScript builtin `Number(v)`: `undefined` and plain
objects coerce to `NaN`, `null` to `0`, booleans to `0`/`1`, strings via
decimal parsing. -/
def toNumber : JsValue → JsNum
  | .undef => .nan
  | .null => .num 0
  | .bool b => .num (if b then 1 else 0)
  | .num q => .num q
  | .str s => strToNumber s
  | .obj _ _ => .nan

/-- Embeds `Math.min`: `NaN` is absorbing. -/
def jsMin : JsNum → JsNum → JsNum
  | .num x, .num y => .num (min x y)
  | _, _ => .nan

/-- Embeds `Math.max`: `NaN` is absorbing. -/
def jsMax : JsNum → JsNum → JsNum
  | .num x, .num y => .num (max x y)
  | _, _ => .nan

/-- `clamp(v, min, max) = Math.max(min, Math.min(max, Number(v)))`
(src/index.js line 318). -/
def clamp (v : JsValue) (lo hi : ℚ) : JsNum :=
  jsMax (.num lo) (jsMin (.num hi) (toNumber v))

/-- The value carried by one characteristic write: boolean (the `On`
characteristic) or numeric. -/
inductive OpVal where
  | b : Bool → OpVal
  | n : JsNum → OpVal
deriving DecidableEq, Repr

/-- One low-level characteristic write operation, as produced by
`resolveAction`. -/
structure Op where
  characteristicType : String
  value : OpVal
deriving DecidableEq, Repr

/-- The result of `resolveAction`: `null` (unresolved), a single
operation object, or an array of operations (the `"color"` case). -/
inductive Resolved where
  | unresolved : Resolved
  | one : Op → Resolved
  | many : List Op → Resolved
deriving DecidableEq, Repr

/-- `MODE_MAP = { off: 0, heat: 1, cool: 2, auto: 3 }` (src/index.js
line 277). -/
def MODE_MAP : List (String × ℚ) := [("off", 0), ("heat", 1), ("cool", 2), ("auto", 3)]

/-- `MODE_MAP[String(value).toLowerCase()] ?? Number(value)`
(src/index.js line 302).  For a non-string `value`, `String(value)` is
`"true"`, `"false"`, a digit string, `"null"`, `"undefined"` or
`"[object Object]"`, none of which is a `MODE_MAP` key, so the lookup
misses and the `Number(value)` fallback applies. -/
def modeValue (value : JsValue) : JsNum :=
  match value with
  | .str s =>
    match MODE_MAP.lookup (jsToLower s) with
    | some n => .num n
    | none => toNumber (.str s)
  | v => toNumber v

/-- `value?.hue`, with JavaScript's `!== undefined` presence test: absent
when `value` is not an object, when the field is missing, or when the
field is explicitly `undefined`. -/
def jsGetHue : JsValue → Option JsValue
  | .obj h _ =>
    match h with
    | some .undef => none
    | x => x
  | _ => none

/-- `value?.saturation`, with the `!== undefined` presence test. -/
def jsGetSat : JsValue → Option JsValue
  | .obj _ s =>
    match s with
    | some .undef => none
    | x => x
  | _ => none

/-- The operation list built by `resolveAction`'s `"color"` case
(src/index.js lines 291–296): push a `Hue` operation if `value?.hue` is
present, then a `Saturation` operation if `value?.saturation` is
present. -/
def colorOps (value : JsValue) : List Op :=
  let ops1 : List Op :=
    match jsGetHue value with
    | some hv => [⟨"Hue", .n (toNumber hv)⟩]
    | none => []
  match jsGetSat value with
  | some sv => ops1 ++ [⟨"Saturation", .n (toNumber sv)⟩]
  | none => ops1

/-- `resolveAction(action, value)` (src/index.js lines 279–316),
translated case by case. -/
def resolveAction (action : String) (value : JsValue) : Resolved :=
  match action with
  | "on" | "power" => .one ⟨"On", .b (truthy value)⟩
  | "toggle" => .one ⟨"On", .b (truthy value)⟩
  | "brightness" | "dim" => .one ⟨"Brightness", .n (clamp value 0 100)⟩
  | "hue" => .one ⟨"Hue", .n (clamp value 0 360)⟩
  | "saturation" => .one ⟨"Saturation", .n (clamp value 0 100)⟩
  | "color" => .many (colorOps value)
  | "colorTemperature" | "ct" => .one ⟨"ColorTemperature", .n (toNumber value)⟩
  | "targetTemperature" | "temperature" => .one ⟨"TargetTemperature", .n (toNumber value)⟩
  | "thermostatMode" | "mode" => .one ⟨"TargetHeatingCoolingState", .n (modeValue value)⟩
  | "lock" => .one ⟨"LockTargetState", .n (.num (if truthy value then 1 else 0))⟩
  | "speed" | "rotationSpeed" => .one ⟨"RotationSpeed", .n (clamp value 0 100)⟩
  | "position" | "targetPosition" => .one ⟨"TargetPosition", .n (clamp value 0 100)⟩
  | "tilt" | "targetTilt" => .one ⟨"TargetHorizontalTiltAngle", .n (clamp value (-90) 90)⟩
  | "garageDoor" | "garage" => .one ⟨"TargetDoorState", .n (.num (if truthy value then 0 else 1))⟩
  | _ => .unresolved

/-- `mapType(humanType)` (src/index.js lines 257–273): first-match-wins
substring classification of the hub's human-readable type label. -/
def mapType (humanType : String) : String :=
  let t := jsToLower humanType
  if jsIncludes t "light" || jsIncludes t "bulb" then "lightbulb"
  else if jsIncludes t "switch" then "switch"
  else if jsIncludes t "outlet" then "outlet"
  else if jsIncludes t "thermostat" then "thermostat"
  else if jsIncludes t "lock" then "lock"
  else if jsIncludes t "fan" then "fan"
  else if jsIncludes t "window" || jsIncludes t "blind" || jsIncludes t "covering" then "blinds"
  else if jsIncludes t "garage" then "garage"
  else if jsIncludes t "motion" then "motion"
  else if jsIncludes t "temperature" then "sensor"
  else if jsIncludes t "humidity" then "sensor"
  else if jsIncludes t "contact" then "sensor"
  else if jsIncludes t "camera" then "camera"
  else "other"

/-- Modelled from the spec: the ordered, fixed list of (substring
predicate over the lowercased type label, canonical type) pairs of §4.3,
in the spec's stated precedence order. -/
def typeTable : List ((String → Bool) × String) :=
  [ (fun t => jsIncludes t "light" || jsIncludes t "bulb", "lightbulb"),
    (fun t => jsIncludes t "switch", "switch"),
    (fun t => jsIncludes t "outlet", "outlet"),
    (fun t => jsIncludes t "thermostat", "thermostat"),
    (fun t => jsIncludes t "lock", "lock"),
    (fun t => jsIncludes t "fan", "fan"),
    (fun t => jsIncludes t "window" || jsIncludes t "blind" || jsIncludes t "covering", "blinds"),
    (fun t => jsIncludes t "garage", "garage"),
    (fun t => jsIncludes t "motion", "motion"),
    (fun t => jsIncludes t "temperature", "sensor"),
    (fun t => jsIncludes t "humidity", "sensor"),
    (fun t => jsIncludes t "contact", "sensor"),
    (fun t => jsIncludes t "camera", "camera") ]

/-- First-match-wins, short-circuiting evaluation of an ordered
classification table; every unmatched label falls back to "other". -/
def evalTable : List ((String → Bool) × String) → String → String
  | [], _ => "other"
  | (p, r) :: rest, t => if p t then r else evalTable rest t

/-- Provenance tag of the resolved inbound API token, as the `source`
field of `resolveApiToken`'s result ('env' | 'file' | 'config' |
'auto'). -/
inductive TokenSource where
  | env : TokenSource
  | file : TokenSource
  | config : TokenSource
  | auto : TokenSource
deriving DecidableEq, Repr

/-- The storage-path state `resolveApiToken` reads and writes: the
`.openclaw-token` file content (`none` = missing or unreadable) and the
`secretKey` field of `.uix-secrets` (`none` = file unreadable, unparsable
or field absent). -/
structure TokenFs where
  fileContent : Option String
  secretKey : Option String
deriving DecidableEq, Repr

/-- Layer 1 (src/index.js lines 56–59): a set — truthy, hence non-empty —
environment variable is accepted as-is. -/
def tryLayer1 (envVar : Option String) : Option (String × TokenSource) :=
  match envVar with
  | some e => if e = "" then none else some (e, .env)
  | none => none

/-- Layer 2 (src/index.js lines 62–71): a readable token file whose
trimmed content has length at least 16 yields that trimmed content. -/
def tryLayer2 (fileContent : Option String) : Option (String × TokenSource) :=
  match fileContent with
  | some c => if 16 ≤ (jsTrim c).length then some (jsTrim c, .file) else none
  | none => none

/-- Layer 3 (src/index.js lines 74–77): a truthy declared `config.token`
of length at least 8. -/
def tryLayer3 (configToken : Option String) : Option (String × TokenSource) :=
  match configToken with
  | some t => if t = "" then none else if 8 ≤ t.length then some (t, .config) else none
  | none => none

/-- Layer 4's seed (src/index.js lines 80–84): the `.uix-secrets` secret
key when readable and truthy, else the fixed default seed. -/
def generatedSeed (fs : TokenFs) : String :=
  match fs.secretKey with
  | some k => if k = "" then "openclaw-default-seed" else k
  | none => "openclaw-default-seed"

/-- Layer 4's token (src/index.js line 86):
`createHmac('sha256', secretKey).update('openclaw-hb-api-token')
.digest('hex').slice(0, 48)`.  The crypto library's HMAC-SHA256 hex
digest is an external primitive, passed in as `digest`. -/
def generatedToken (digest : String → String → String) (fs : TokenFs) : String :=
  jsSlice (digest (generatedSeed fs) "openclaw-hb-api-token") 48

/-- `resolveApiToken(config, storagePath, log)` (src/index.js lines
54–102): the four layers evaluated in order, stopping at the first
success; layer 4 generates a token and best-effort persists it
(`writeOk` models whether `writeFileSync` succeeds — its failure is
caught, logged and non-fatal).  Returns the resolved (token, source)
pair and the resulting file state. -/
def resolveApiToken (digest : String → String → String) (envVar configToken : Option String)
    (fs : TokenFs) (writeOk : Bool) : (String × TokenSource) × TokenFs :=
  match tryLayer1 envVar with
  | some r => (r, fs)
  | none =>
    match tryLayer2 fs.fileContent with
    | some r => (r, fs)
    | none =>
      match tryLayer3 configToken with
      | some r => (r, fs)
      | none =>
        let g := generatedToken digest fs
        ((g, .auto), if writeOk then { fs with fileContent := some (g ++ "\n") } else fs)

/-- Lowercase hexadecimal digit test (the alphabet of a node `hex`
digest). -/
def isHexDigitChar (c : Char) : Bool :=
  ('0' ≤ c && c ≤ '9') || ('a' ≤ c && c ≤ 'f')

/-- A stand-in for the external HMAC-SHA256 hex digest, used to
instantiate the digest-dependent theorems at a concrete input: a
constant 64-character hex string. -/
def digest0 : String → String → String := fun _ _ => String.mk (List.replicate 64 '0')

/-- The outbound auth strategy held in `UiClient.authMode`
('jwt-direct' | 'login' | 'none'). -/
inductive AuthMode where
  | jwtDirect : AuthMode
  | login : AuthMode
  | noAuth : AuthMode
deriving DecidableEq, Repr

/-- One record of the `auth.json` users document: a username and an
administrator flag (the only fields `_detectAuthMode` reads). -/
structure AuthUser where
  username : String
  admin : Bool
deriving DecidableEq, Repr

/-- JavaScript truthiness of a possibly-absent string. -/
def optTruthy (o : Option String) : Bool :=
  match o with
  | some s => decide (s ≠ "")
  | none => false

/-- The `secretKey` the client retains (src/index.js lines 126–133):
set only when `.uix-secrets` is readable and its `secretKey` field is
truthy; `skField` is that field (`none` = unreadable / unparsable /
absent). -/
def readSecretKey (skField : Option String) : Option String :=
  match skField with
  | some k => if k = "" then none else some k
  | none => none

/-- The `adminUser` the client retains (src/index.js lines 136–141):
the `username` of the first record with a true `admin` flag of a
readable array-shaped `auth.json` (`users = none` models an unreadable,
unparsable or non-array document). -/
def readAdminUser (users : Option (List AuthUser)) : Option String :=
  match users with
  | some us =>
    match us.find? (fun u => u.admin) with
    | some u => some u.username
    | none => none
  | none => none

/-- `UiClient._detectAuthMode` (src/index.js lines 124–153): jwt-direct
when both a secret key and a truthy admin username were read; else login
when both config credentials are truthy (`uiUser`/`uiPass` are the
constructor's `uiUser || null` / `uiPass || null`); else none. -/
def detectAuthMode (skField : Option String) (users : Option (List AuthUser))
    (uiUser uiPass : Option String) : AuthMode :=
  if optTruthy (readSecretKey skField) && optTruthy (readAdminUser users) then .jwtDirect
  else if optTruthy uiUser && optTruthy uiPass then .login
  else .noAuth

/-- The client's mutable credential cache: `this.jwt` and
`this.jwtExpires` (milliseconds), plus the fixed auth mode. -/
structure UiState where
  authMode : AuthMode
  jwt : Option String
  jwtExpires : Int
deriving DecidableEq, Repr

/-- The body of a successful login response: `access_token` and the
optional `expires_in` seconds. -/
structure LoginData where
  accessToken : String
  expiresIn : Option Int
deriving DecidableEq, Repr

/-- Outcome of the external `POST /api/auth/login` call. -/
inductive LoginOutcome where
  | ok : LoginData → LoginOutcome
  | fail : String → LoginOutcome
deriving DecidableEq, Repr

/-- Result of one `UiClient.token()` call: a credential and the updated
cache state, or a raised error. -/
inductive TokenResult where
  | ok : String → UiState → TokenResult
  | error : String → TokenResult
deriving DecidableEq, Repr

/-- `this.jwtExpires` set by `_loginAuth` (src/index.js line 199):
`Date.now() + ((data.expires_in || 28800) - 60) * 1000`. -/
def loginExpiry (now : Int) (d : LoginData) : Int :=
  let ei : Int :=
    match d.expiresIn with
    | some n => if n = 0 then 28800 else n
    | none => 28800
  now + (ei - 60) * 1000

/-- `UiClient.token()` (src/index.js lines 167–184): refresh the cached
credential when absent or past its expiry; in jwt-direct mode the signed
credential is the external `jwt.sign` output (`signedJwt`) and the cache
expiry is seven hours out; in login mode one external login call
(`loginResult`) is made; with no auth mode every call raises. -/
def tokenStep (st : UiState) (now : Int) (signedJwt : String)
    (loginResult : LoginOutcome) : TokenResult :=
  match st.authMode with
  | .jwtDirect =>
    if optTruthy st.jwt = false ∨ st.jwtExpires ≤ now then
      .ok signedJwt ⟨st.authMode, some signedJwt, now + 7 * 3600 * 1000⟩
    else .ok (st.jwt.getD "") st
  | .login =>
    if optTruthy st.jwt = false ∨ st.jwtExpires ≤ now then
      match loginResult with
      | .ok d => .ok d.accessToken ⟨st.authMode, some d.accessToken, loginExpiry now d⟩
      | .fail e => .error e
    else .ok (st.jwt.getD "") st
  | .noAuth => .error "No authentication method available for Config UI X."

/-- `ACCESSORY_NAME` (src/index.js line 29): the platform name this
plugin registers with Homebridge. -/
def ACCESSORY_NAME : String := "OpenClawAPI"

/-- One entry of a service's `serviceCharacteristics` array, with the
two fields `parseAccessories` reads. -/
structure RawCharacteristic where
  type : String
  canWrite : Bool

/-- One raw service record of the hub snapshot, with the fields
`parseAccessories` reads (`none` models an absent field;
`aiName`/`manufacturer`/`model` are `accessoryInformation?.Name` /
`?.Manufacturer` / `?.Model`). -/
structure RawService where
  uniqueId : Option String
  serviceName : Option String
  aiName : Option String
  humanType : Option String
  type : Option String
  values : List (String × JsValue)
  serviceCharacteristics : List RawCharacteristic
  manufacturer : Option String
  model : Option String

/-- JavaScript `a || b` on a possibly-absent string: the fallback is
taken when the field is missing or empty. -/
def orStr (a : Option String) (b : String) : String :=
  match a with
  | some s => if s = "" then b else s
  | none => b

/-- `svc.serviceName || svc.accessoryInformation?.Name || ''`
(src/index.js line 234). -/
def svcName (svc : RawService) : String := orStr svc.serviceName (orStr svc.aiName "")

/-- `svc.humanType || svc.type || 'Unknown'` (src/index.js line 235). -/
def svcType (svc : RawService) : String := orStr svc.humanType (orStr svc.type "Unknown")

/-- One normalized device record as pushed by `parseAccessories`
(src/index.js lines 243–252). -/
structure Device where
  id : String
  name : String
  type : String
  humanType : String
  state : List (String × JsValue)
  characteristics : List String
  manufacturer : String
  model : String

/-- The device record built from one kept raw service (src/index.js
lines 240–252). -/
def mkDevice (svc : RawService) : Device :=
  { id := svc.uniqueId.getD "",
    name := svcName svc,
    type := mapType (svcType svc),
    humanType := svcType svc,
    state := svc.values,
    characteristics :=
      (svc.serviceCharacteristics.filter (fun c => c.canWrite)).map (fun c => c.type),
    manufacturer := orStr svc.manufacturer "",
    model := orStr svc.model "" }

/-- `parseAccessories(raw)` (src/index.js lines 230–255): skip records
with a falsy `uniqueId`, the two structural record types, and records
whose lowercased display name is the fixed literal "openclaw api";
normalize the rest in order. -/
def parseAccessories : List RawService → List Device
  | [] => []
  | svc :: rest =>
    if (svc.uniqueId.getD "" = "" : Bool) || (svcType svc = "AccessoryInformation" : Bool)
        || (svcType svc = "ProtocolInformation" : Bool) then
      parseAccessories rest
    else if (jsToLower (svcName svc) = "openclaw api" : Bool) then
      parseAccessories rest
    else
      mkDevice svc :: parseAccessories rest

/-- The keep-condition of the amended C6: a record is kept iff it has a
truthy stable id, its type label is neither structural record type, and
its display name does not case-insensitively equal the fixed literal
"openclaw api" (the default platform display name "OpenClaw API"
lowercased — not `ACCESSORY_NAME`). -/
def keepService (svc : RawService) : Bool :=
  !(svc.uniqueId.getD "" = "" : Bool) && !(svcType svc = "AccessoryInformation" : Bool) &&
    !(svcType svc = "ProtocolInformation" : Bool) &&
    !(jsToLower (svcName svc) = "openclaw api" : Bool)

/-- A raw record whose display name case-insensitively equals
`ACCESSORY_NAME` ("OpenClawAPI"), with a stable id and an ordinary type
label. -/
def selfNamedService : RawService :=
  { uniqueId := some "uid-1",
    serviceName := some "OpenClawAPI",
    aiName := none,
    humanType := some "Lightbulb",
    type := none,
    values := [],
    serviceCharacteristics := [],
    manufacturer := none,
    model := none }

/-- Outcome of one upstream `PUT /api/accessories/:id` call
(`UiClient.setCharacteristic`): success, or a raised error message. -/
inductive UpResult where
  | ok : UpResult
  | fail : String → UpResult
deriving DecidableEq, Repr

/-- One upstream write call as issued: device id, characteristic, value. -/
structure WriteCall where
  id : String
  characteristicType : String
  value : OpVal
deriving DecidableEq, Repr

/-- `Array.isArray(resolved) ? resolved : [resolved]` after the
`if (!resolved)` null check (src/index.js lines 389–391): `none` is the
unresolved case, otherwise the operation list. -/
def Resolved.toOps : Resolved → Option (List Op)
  | .unresolved => none
  | .one op => some [op]
  | .many ops => some ops

/-- The upstream call record for one operation against one device. -/
def mkCall (id : String) (op : Op) : WriteCall :=
  ⟨id, op.characteristicType, op.value⟩

/-- The sequential `for (const op of ops) await setCharacteristic(...)`
loop (src/index.js lines 393–395 and 412): issues calls in order and
stops at the first failure, returning the calls actually issued and the
aggregate outcome.  `up` is the external upstream write collaborator. -/
def execOps (up : String → String → OpVal → UpResult) (id : String) :
    List Op → List WriteCall × UpResult
  | [] => ([], .ok)
  | op :: rest =>
    match up id op.characteristicType op.value with
    | .fail e => ([mkCall id op], .fail e)
    | .ok =>
      match execOps up id rest with
      | (calls, r) => (mkCall id op :: calls, r)

/-- The HTTP outcome of the single-device control route: 400, 502, or
success. -/
inductive ControlOutcome where
  | badRequest : String → ControlOutcome
  | controlError : String → ControlOutcome
  | success : ControlOutcome
deriving DecidableEq, Repr

/-- `POST /api/devices/:id/control` (src/index.js lines 385–400):
missing action is a 400; an unresolved action is a 400 with zero
upstream calls; otherwise the resolved operations run sequentially and
the first failure turns into a 502.  Returns the outcome and the
upstream calls issued. -/
def controlOne (up : String → String → OpVal → UpResult) (id : String)
    (action : Option String) (value : JsValue) : ControlOutcome × List WriteCall :=
  if optTruthy action = false then (.badRequest "Missing \"action\".", [])
  else
    let a := action.getD ""
    match (resolveAction a value).toOps with
    | none => (.badRequest ("Unknown action: " ++ a ++ "."), [])
    | some ops =>
      match execOps up id ops with
      | (calls, .ok) => (.success, calls)
      | (calls, .fail e) => (.controlError e, calls)

/-- An upstream collaborator that rejects Saturation writes and accepts
everything else. -/
def upFailSat : String → String → OpVal → UpResult :=
  fun _ c _ => if c = "Saturation" then .fail "boom" else .ok

/-- One entry of the batch route's `devices` array. -/
structure BatchItem where
  id : String
  action : Option String
  value : JsValue

/-- One entry of the batch route's `results` array. -/
structure BatchEntry where
  id : String
  success : Bool
  error : Option String
deriving DecidableEq, Repr

/-- `resolveAction(item.action, item.value)` when `item.action` may be
absent: `switch (undefined)` falls to the default case, i.e.
unresolved. -/
def resolveActionOpt (action : Option String) (value : JsValue) : Resolved :=
  match action with
  | some a => resolveAction a value
  | none => .unresolved

/-- Processing of one batch entry (src/index.js lines 407–416): an
unresolved action contributes a failure entry and no upstream call; an
upstream failure contributes a failure entry with its message; success
contributes a success entry.  (`${item.action}` renders a missing action
as "undefined".) -/
def processItem (up : String → String → OpVal → UpResult) (item : BatchItem) :
    BatchEntry × List WriteCall :=
  match (resolveActionOpt item.action item.value).toOps with
  | none => (⟨item.id, false, some ("Unknown action: " ++ item.action.getD "undefined")⟩, [])
  | some ops =>
    match execOps up item.id ops with
    | (calls, .ok) => (⟨item.id, true, none⟩, calls)
    | (calls, .fail e) => (⟨item.id, false, some e⟩, calls)

/-- `POST /api/devices/control` (src/index.js lines 403–419): process
every entry in input order, accumulating results and upstream calls. -/
def controlBatch (up : String → String → OpVal → UpResult) :
    List BatchItem → List BatchEntry × List WriteCall
  | [] => ([], [])
  | item :: rest =>
    match processItem up item, controlBatch up rest with
    | (entry, calls), (entries, moreCalls) => (entry :: entries, calls ++ moreCalls)

/-- An upstream collaborator that accepts every write. -/
def upOk : String → String → OpVal → UpResult := fun _ _ _ => .ok

/-- A three-entry batch whose middle entry has an unknown action. -/
def batch3 : List BatchItem :=
  [⟨"d1", some "on", .bool true⟩,
   ⟨"d2", some "dance", .num 1⟩,
   ⟨"d3", some "brightness", .num 150⟩]

/-- A hexadecimal digit is not whitespace. -/
theorem isWs_eq_false_of_hex {c : Char} (h : isHexDigitChar c = true) : isWs c = false := by
  by_contra hws
  rw [Bool.not_eq_false] at hws
  unfold isWs at hws
  simp only [Bool.or_eq_true, decide_eq_true_eq] at hws
  rcases hws with ((((h1 | h1) | h1) | h1) | h1) | h1 <;> subst h1 <;> exact absurd h (by decide)

/-- `dropWhile` is the identity on a list none of whose elements satisfy
the predicate. -/
theorem dropWhile_eq_self_of_none {p : Char → Bool} {l : List Char}
    (h : ∀ c ∈ l, p c = false) : l.dropWhile p = l := by
  cases l with
  | nil => rfl
  | cons a t => simp [List.dropWhile_cons, h a (List.mem_cons_self a t)]

/-- Trimming a non-empty whitespace-free list followed by a newline
recovers the list. -/
theorem trimList_append_newline {l : List Char}
    (hne : l ≠ []) (h : ∀ c ∈ l, isWs c = false) :
    trimList (l ++ ['\n']) = l := by
  unfold trimList
  have hfront : (l ++ ['\n']).dropWhile isWs = l ++ ['\n'] := by
    cases l with
    | nil => exact absurd rfl hne
    | cons a t => simp [List.dropWhile_cons, h a (List.mem_cons_self a t)]
  rw [hfront, List.reverse_append]
  have hrev : ∀ c ∈ l.reverse, isWs c = false := fun c hc => h c (List.mem_reverse.mp hc)
  have : (['\n'].reverse ++ l.reverse).dropWhile isWs = l.reverse := by
    simp only [List.reverse_cons, List.reverse_nil, List.nil_append, List.singleton_append,
      List.dropWhile_cons]
    norm_num [isWs, dropWhile_eq_self_of_none hrev]
  rw [this, List.reverse_reverse]

/-- A non-truthy environment variable makes layer 1 fail. -/
theorem tryLayer1_eq_none {envVar : Option String} (henv : envVar.getD "" = "") :
    tryLayer1 envVar = none := by
  cases envVar with
  | none => rfl
  | some e =>
    have he : e = "" := by simpa using henv
    simp [tryLayer1, he]

/-- A missing file, or one whose trimmed content is short, makes layer 2
fail. -/
theorem tryLayer2_eq_none {fileContent : Option String}
    (hfile : ∀ c, fileContent = some c → (jsTrim c).length < 16) :
    tryLayer2 fileContent = none := by
  cases hfc : fileContent with
  | none => rfl
  | some c =>
    have := hfile c hfc
    simp only [tryLayer2]
    rw [if_neg (by omega)]

/-- A missing or short declared config token makes layer 3 fail. -/
theorem tryLayer3_eq_none {configToken : Option String}
    (hcfg : ∀ t, configToken = some t → t.length < 8) :
    tryLayer3 configToken = none := by
  cases hct : configToken with
  | none => rfl
  | some t =>
    have := hcfg t hct
    simp only [tryLayer3]
    by_cases hte : t = ""
    · rw [if_pos hte]
    · rw [if_neg hte, if_neg (by omega)]

/-- The generated token has exactly 48 characters whenever the external
digest yields at least 48. -/
theorem generatedToken_length (digest : String → String → String) (fs : TokenFs)
    (hd : ∀ k m, 48 ≤ (digest k m).length ∧ (digest k m).data.all isHexDigitChar = true) :
    (generatedToken digest fs).length = 48 := by
  have h := (hd (generatedSeed fs) "openclaw-hb-api-token").1
  show ((digest (generatedSeed fs) "openclaw-hb-api-token").data.take 48).length = 48
  rw [List.length_take]
  exact Nat.min_eq_left h

/-- The generated token consists of hex digits whenever the external
digest does. -/
theorem generatedToken_hex (digest : String → String → String) (fs : TokenFs)
    (hd : ∀ k m, 48 ≤ (digest k m).length ∧ (digest k m).data.all isHexDigitChar = true) :
    (generatedToken digest fs).data.all isHexDigitChar = true := by
  have h := (hd (generatedSeed fs) "openclaw-hb-api-token").2
  rw [List.all_eq_true] at h ⊢
  intro c hc
  exact h c (List.take_subset _ _ hc)

/-- C1: inbound token resolution evaluates its four sources in strict
priority order, stopping at the first success: a truthy environment
value is returned as-is with source env; else a readable file whose
trimmed content has length at least 16 returns that trimmed content with
source file; else a truthy declared config value of length at least 8
returns it with source config; else the resolver always returns the
generated 48-hex-character token with source auto. -/
theorem resolveApiToken_priority_chain (digest : String → String → String)
    (envVar configToken : Option String) (fs : TokenFs) (writeOk : Bool)
    (hd : ∀ k m, 48 ≤ (digest k m).length ∧ (digest k m).data.all isHexDigitChar = true) :
    (∀ e, envVar = some e → e ≠ "" →
      (resolveApiToken digest envVar configToken fs writeOk).1 = (e, .env)) ∧
    (envVar.getD "" = "" →
      ∀ c, fs.fileContent = some c → 16 ≤ (jsTrim c).length →
      (resolveApiToken digest envVar configToken fs writeOk).1 = (jsTrim c, .file)) ∧
    (envVar.getD "" = "" →
      (∀ c, fs.fileContent = some c → (jsTrim c).length < 16) →
      ∀ t, configToken = some t → t ≠ "" → 8 ≤ t.length →
      (resolveApiToken digest envVar configToken fs writeOk).1 = (t, .config)) ∧
    (envVar.getD "" = "" →
      (∀ c, fs.fileContent = some c → (jsTrim c).length < 16) →
      (∀ t, configToken = some t → t.length < 8) →
      (resolveApiToken digest envVar configToken fs writeOk).1 =
        (generatedToken digest fs, .auto) ∧
      (generatedToken digest fs).length = 48 ∧
      (generatedToken digest fs).data.all isHexDigitChar = true) := by
  refine ⟨?_, ?_, ?_, ?_⟩
  · intro e he hne
    subst he
    simp [resolveApiToken, tryLayer1, hne]
  · intro henv c hc hlen
    simp [resolveApiToken, tryLayer1_eq_none henv, tryLayer2, hc, hlen]
  · intro henv hfile t ht htne hlen
    simp [resolveApiToken, tryLayer1_eq_none henv, tryLayer2_eq_none hfile,
      tryLayer3, ht, htne, hlen]
  · intro henv hfile hcfg
    refine ⟨?_, generatedToken_length digest fs hd, generatedToken_hex digest fs hd⟩
    simp [resolveApiToken, tryLayer1_eq_none henv, tryLayer2_eq_none hfile,
      tryLayer3_eq_none hcfg]

/-- The stand-in digest satisfies the digest hypothesis. -/
theorem digest0_spec :
    ∀ k m, 48 ≤ (digest0 k m).length ∧ (digest0 k m).data.all isHexDigitChar = true := by
  intro k m
  show 48 ≤ (String.mk (List.replicate 64 '0')).length ∧
    (String.mk (List.replicate 64 '0')).data.all isHexDigitChar = true
  exact ⟨by decide, by decide⟩

/-- Closed witness for `resolveApiToken_priority_chain`: with all four
sources present the environment value wins. -/
theorem resolveApiToken_priority_chain_witness :
    (resolveApiToken digest0 (some "envtok") (some "configtoken")
      ⟨some "  file-token-0123456789  ", some "sk"⟩ true).1 = ("envtok", .env) :=
  (resolveApiToken_priority_chain digest0 (some "envtok") (some "configtoken")
    ⟨some "  file-token-0123456789  ", some "sk"⟩ true digest0_spec).1 "envtok" rfl (by decide)

/-- C5: when layers 1–3 yield nothing and layer 4 generates and persists
a token, a second resolution pass with no other sources present reads
back exactly the same token value with source file, the persisted
value's trimmed content meeting the file layer's length bound. -/
theorem generatedToken_roundTrip (digest : String → String → String)
    (sk : Option String) (writeOk2 : Bool)
    (hd : ∀ k m, 48 ≤ (digest k m).length ∧ (digest k m).data.all isHexDigitChar = true) :
    (resolveApiToken digest none none ⟨none, sk⟩ true).1.2 = TokenSource.auto ∧
    16 ≤ (jsTrim ((resolveApiToken digest none none ⟨none, sk⟩ true).1.1 ++ "\n")).length ∧
    (resolveApiToken digest none none
        (resolveApiToken digest none none ⟨none, sk⟩ true).2 writeOk2).1 =
      ((resolveApiToken digest none none ⟨none, sk⟩ true).1.1, TokenSource.file) := by
  have hlen : (generatedToken digest ⟨none, sk⟩).length = 48 :=
    generatedToken_length digest ⟨none, sk⟩ hd
  have hhexmem : ∀ c ∈ (generatedToken digest ⟨none, sk⟩).data, isHexDigitChar c = true :=
    List.all_eq_true.mp (generatedToken_hex digest ⟨none, sk⟩ hd)
  have hne : (generatedToken digest ⟨none, sk⟩).data ≠ [] := by
    intro h0
    have h48 : (generatedToken digest ⟨none, sk⟩).data.length = 48 := hlen
    rw [h0] at h48
    simp at h48
  have htrim : jsTrim (generatedToken digest ⟨none, sk⟩ ++ "\n") = generatedToken digest ⟨none, sk⟩ := by
    show String.mk (trimList ((generatedToken digest ⟨none, sk⟩).data ++ ['\n'])) = _
    rw [trimList_append_newline hne (fun c hc => isWs_eq_false_of_hex (hhexmem c hc))]
  have hfirst : resolveApiToken digest none none ⟨none, sk⟩ true =
      ((generatedToken digest ⟨none, sk⟩, .auto),
        ⟨some (generatedToken digest ⟨none, sk⟩ ++ "\n"), sk⟩) := by
    simp [resolveApiToken, tryLayer1, tryLayer2, tryLayer3]
  have h2 : tryLayer2 (some (generatedToken digest ⟨none, sk⟩ ++ "\n")) =
      some (generatedToken digest ⟨none, sk⟩, TokenSource.file) := by
    simp only [tryLayer2]
    rw [htrim, hlen]
    norm_num
  rw [hfirst]
  refine ⟨rfl, ?_, ?_⟩
  · show 16 ≤ (jsTrim (generatedToken digest ⟨none, sk⟩ ++ "\n")).length
    rw [htrim, hlen]
    norm_num
  · show (resolveApiToken digest none none ⟨some (generatedToken digest ⟨none, sk⟩ ++ "\n"), sk⟩ writeOk2).1 = _
    simp [resolveApiToken, tryLayer1, h2]

/-- Closed witness for `generatedToken_roundTrip`, at the stand-in
digest. -/
theorem generatedToken_roundTrip_witness :
    (resolveApiToken digest0 none none ⟨none, some "secret"⟩ true).1.2 = TokenSource.auto ∧
    (resolveApiToken digest0 none none
        (resolveApiToken digest0 none none ⟨none, some "secret"⟩ true).2 false).1 =
      ((resolveApiToken digest0 none none ⟨none, some "secret"⟩ true).1.1, TokenSource.file) :=
  ⟨(generatedToken_roundTrip digest0 (some "secret") false digest0_spec).1,
   (generatedToken_roundTrip digest0 (some "secret") false digest0_spec).2.2⟩

/-- C2: the outbound auth mode is chosen once from the available inputs —
jwt-direct whenever both a secret key and an admin username are readable,
even if config credentials are also declared; else login when both
config credentials are declared; else none — and with no auth mode every
token() call raises an error. -/
theorem detectAuthMode_selection (skField : Option String)
    (users : Option (List AuthUser)) (uiUser uiPass : Option String) :
    (optTruthy (readSecretKey skField) = true → optTruthy (readAdminUser users) = true →
      detectAuthMode skField users uiUser uiPass = .jwtDirect) ∧
    (¬(optTruthy (readSecretKey skField) = true ∧ optTruthy (readAdminUser users) = true) →
      optTruthy uiUser = true → optTruthy uiPass = true →
      detectAuthMode skField users uiUser uiPass = .login) ∧
    (¬(optTruthy (readSecretKey skField) = true ∧ optTruthy (readAdminUser users) = true) →
      ¬(optTruthy uiUser = true ∧ optTruthy uiPass = true) →
      detectAuthMode skField users uiUser uiPass = .noAuth) ∧
    (∀ st : UiState, ∀ now signedJwt loginResult, st.authMode = .noAuth →
      tokenStep st now signedJwt loginResult =
        .error "No authentication method available for Config UI X.") := by
  refine ⟨?_, ?_, ?_, ?_⟩
  · intro hsk hadmin
    simp [detectAuthMode, hsk, hadmin]
  · intro hno huser hpass
    have hb : (optTruthy (readSecretKey skField) && optTruthy (readAdminUser users)) = false := by
      cases h1 : optTruthy (readSecretKey skField) <;>
        cases h2 : optTruthy (readAdminUser users) <;> simp_all
    simp [detectAuthMode, hb, huser, hpass]
  · intro hno hno2
    have hb : (optTruthy (readSecretKey skField) && optTruthy (readAdminUser users)) = false := by
      cases h1 : optTruthy (readSecretKey skField) <;>
        cases h2 : optTruthy (readAdminUser users) <;> simp_all
    have hb2 : (optTruthy uiUser && optTruthy uiPass) = false := by
      cases h1 : optTruthy uiUser <;> cases h2 : optTruthy uiPass <;> simp_all
    simp [detectAuthMode, hb, hb2]
  · intro st now signedJwt loginResult hmode
    simp [tokenStep, hmode]

/-- Closed witness for `detectAuthMode_selection`: with a secret key, an
admin user and declared config credentials all present, the mode is
jwt-direct, and a client in mode none raises on token(). -/
theorem detectAuthMode_selection_witness :
    detectAuthMode (some "sk") (some [⟨"user2", false⟩, ⟨"admin1", true⟩])
      (some "cfgUser") (some "cfgPass") = .jwtDirect ∧
    tokenStep ⟨.noAuth, none, 0⟩ 17 "signed" (.fail "x") =
      .error "No authentication method available for Config UI X." :=
  ⟨(detectAuthMode_selection (some "sk") (some [⟨"user2", false⟩, ⟨"admin1", true⟩])
      (some "cfgUser") (some "cfgPass")).1 (by decide) (by decide),
   (detectAuthMode_selection (some "sk") (some [⟨"user2", false⟩, ⟨"admin1", true⟩])
      (some "cfgUser") (some "cfgPass")).2.2.2 ⟨.noAuth, none, 0⟩ 17 "signed" (.fail "x") rfl⟩

/-- An infix sublist stays an infix sublist under `List.map`. -/
theorem isInfixMap {f : Char → Char} {l₁ l₂ : List Char} (h : l₁ <:+: l₂) :
    l₁.map f <:+: l₂.map f := by
  obtain ⟨s, t, hst⟩ := h
  exact ⟨s.map f, t.map f, by rw [← hst]; simp⟩

/-- C7: device-type classification is a total function on type labels,
equal to first-match-wins evaluation of the fixed ordered substring-
predicate table of the spec (applied to the lowercased label, with
fallback "other"); in particular any label containing both "light" and
"switch" classifies as "lightbulb". -/
theorem mapType_table_spec :
    (∀ ht, mapType ht = evalTable typeTable (jsToLower ht)) ∧
    (∀ ht, jsIncludes ht "light" = true → jsIncludes ht "switch" = true →
      mapType ht = "lightbulb") := by
  constructor
  · intro ht
    rfl
  · intro ht hl _hs
    have h1 : ("light".data : List Char) <:+: ht.data := of_decide_eq_true hl
    have h2 : ("light".data : List Char) <:+: ht.data.map Char.toLower := by
      have h3 := isInfixMap (f := Char.toLower) h1
      simpa using h3
    have hl' : jsIncludes (jsToLower ht) "light" = true := decide_eq_true h2
    simp [mapType, hl']

/-- Closed witness for the hypotheses of `mapType_table_spec`: the label
"light switch" contains both substrings and classifies as "lightbulb". -/
theorem mapType_table_spec_witness : mapType "light switch" = "lightbulb" :=
  mapType_table_spec.2 "light switch" (by decide) (by decide)

/-- C8: every range-valued action clamps its numeric input into the
action's fixed inclusive bound (and never rejects out-of-range input);
brightness 150 resolves to 100 and brightness -5 to 0. -/
theorem clamp_actions_spec :
    (∀ q : ℚ,
      resolveAction "brightness" (.num q) = .one ⟨"Brightness", .n (.num (max 0 (min 100 q)))⟩ ∧
      resolveAction "dim" (.num q) = .one ⟨"Brightness", .n (.num (max 0 (min 100 q)))⟩ ∧
      resolveAction "hue" (.num q) = .one ⟨"Hue", .n (.num (max 0 (min 360 q)))⟩ ∧
      resolveAction "saturation" (.num q) = .one ⟨"Saturation", .n (.num (max 0 (min 100 q)))⟩ ∧
      resolveAction "speed" (.num q) = .one ⟨"RotationSpeed", .n (.num (max 0 (min 100 q)))⟩ ∧
      resolveAction "rotationSpeed" (.num q) = .one ⟨"RotationSpeed", .n (.num (max 0 (min 100 q)))⟩ ∧
      resolveAction "position" (.num q) = .one ⟨"TargetPosition", .n (.num (max 0 (min 100 q)))⟩ ∧
      resolveAction "targetPosition" (.num q) = .one ⟨"TargetPosition", .n (.num (max 0 (min 100 q)))⟩ ∧
      resolveAction "tilt" (.num q) =
        .one ⟨"TargetHorizontalTiltAngle", .n (.num (max (-90) (min 90 q)))⟩ ∧
      resolveAction "targetTilt" (.num q) =
        .one ⟨"TargetHorizontalTiltAngle", .n (.num (max (-90) (min 90 q)))⟩) ∧
    (∀ q : ℚ,
      0 ≤ max 0 (min 100 q) ∧ max 0 (min 100 q) ≤ 100 ∧
      0 ≤ max 0 (min 360 q) ∧ max 0 (min 360 q) ≤ 360 ∧
      (-90 : ℚ) ≤ max (-90) (min 90 q) ∧ max (-90) (min 90 q) ≤ 90) ∧
    resolveAction "brightness" (.num 150) = .one ⟨"Brightness", .n (.num 100)⟩ ∧
    resolveAction "brightness" (.num (-5)) = .one ⟨"Brightness", .n (.num 0)⟩ := by
  refine ⟨fun q => ⟨rfl, rfl, rfl, rfl, rfl, rfl, rfl, rfl, rfl, rfl⟩, fun q => ?_, by decide, by decide⟩
  refine ⟨le_max_left _ _, max_le (by norm_num) (min_le_left _ _),
    le_max_left _ _, max_le (by norm_num) (min_le_left _ _),
    le_max_left _ _, max_le (by norm_num) (min_le_left _ _)⟩

/-- C9: the compound "color" action yields one operation per present
sub-field — hue first, then saturation — and nothing for absent
sub-fields; {hue: 240} yields exactly one Hue operation. -/
theorem color_action_spec :
    (∀ h s : Option JsValue,
      resolveAction "color" (.obj h s) =
        .many (((jsGetHue (.obj h s)).toList.map fun hv => Op.mk "Hue" (.n (toNumber hv))) ++
          ((jsGetSat (.obj h s)).toList.map fun sv => Op.mk "Saturation" (.n (toNumber sv))))) ∧
    resolveAction "color" (.obj (some (.num 240)) none) = .many [⟨"Hue", .n (.num 240)⟩] := by
  refine ⟨fun h s => ?_, by decide⟩
  show Resolved.many (colorOps (.obj h s)) = _
  unfold colorOps
  cases hh : jsGetHue (.obj h s) <;> cases hs : jsGetSat (.obj h s) <;> simp

/-- One unfolding step of `parseAccessories` in terms of the
keep-condition. -/
theorem parseAccessories_cons (svc : RawService) (rest : List RawService) :
    parseAccessories (svc :: rest) =
      if keepService svc then mkDevice svc :: parseAccessories rest
      else parseAccessories rest := by
  by_cases h1 : svc.uniqueId.getD "" = "" <;>
    by_cases h2 : svcType svc = "AccessoryInformation" <;>
      by_cases h3 : svcType svc = "ProtocolInformation" <;>
        by_cases h4 : jsToLower (svcName svc) = "openclaw api" <;>
          simp [parseAccessories, keepService, h1, h2, h3, h4]

/-- C6 (amended): catalog normalization drops a raw record if and only
if it lacks a truthy stable id, or its type is one of the two structural
record types, or its lowercased display name equals the fixed literal
"openclaw api"; every other record appears, in order, normalized by
`mkDevice`. -/
theorem parseAccessories_filter_spec (raw : List RawService) :
    parseAccessories raw = (raw.filter keepService).map mkDevice := by
  induction raw with
  | nil => rfl
  | cons svc rest ih =>
    rw [parseAccessories_cons, List.filter_cons]
    cases hk : keepService svc <;> simp [hk, ih]

/-- Counterexample to C6 as stated: a record whose display name
case-insensitively equals the gateway's self-registered accessory name
`ACCESSORY_NAME` ("OpenClawAPI") is NOT dropped — the code compares
against the distinct literal "openclaw api", so the record survives
normalization. -/
theorem parseAccessories_accessoryName_counterexample :
    jsToLower (svcName selfNamedService) = jsToLower ACCESSORY_NAME ∧
    jsToLower (svcName selfNamedService) ≠ "openclaw api" ∧
    (parseAccessories [selfNamedService]).map (fun d => d.name) = ["OpenClawAPI"] := by
  refine ⟨by decide, by decide, by decide⟩

/-- When every operation succeeds, the loop issues exactly the resolved
operations, in order. -/
theorem execOps_all_ok (up : String → String → OpVal → UpResult) (id : String)
    (ops : List Op) (h : ∀ op ∈ ops, up id op.characteristicType op.value = .ok) :
    execOps up id ops = (ops.map (mkCall id), .ok) := by
  induction ops with
  | nil => rfl
  | cons op rest ih =>
    have h1 : up id op.characteristicType op.value = .ok := h op (List.mem_cons_self op rest)
    have h2 := ih (fun o ho => h o (List.mem_cons_of_mem op ho))
    simp [execOps, h1, h2]

/-- The first failing operation aborts the remaining operations: the
issued calls are exactly the successful ones before it plus the failing
one, and the outcome carries its error. -/
theorem execOps_first_fail (up : String → String → OpVal → UpResult) (id : String)
    (pre : List Op) (f : Op) (post : List Op) (e : String)
    (hok : ∀ op ∈ pre, up id op.characteristicType op.value = .ok)
    (hf : up id f.characteristicType f.value = .fail e) :
    execOps up id (pre ++ f :: post) = ((pre ++ [f]).map (mkCall id), .fail e) := by
  induction pre with
  | nil => simp [execOps, hf]
  | cons op rest ih =>
    have h1 : up id op.characteristicType op.value = .ok := hok op (List.mem_cons_self op rest)
    have h2 := ih (fun o ho => hok o (List.mem_cons_of_mem op ho))
    simp [execOps, h1, h2]

/-- C3: single-device control — an unresolvable (or missing) action name
fails as a 400 caller error with zero upstream calls; otherwise the
resolved operations execute sequentially in resolver order, the first
failing operation aborts the remainder, its error is reported, and the
operations already applied before the failure stay applied (they remain
in the issued-call trace, with no compensating calls). -/
theorem controlOne_spec (up : String → String → OpVal → UpResult) (id : String) :
    (∀ v : JsValue, controlOne up id none v = (.badRequest "Missing \"action\".", [])) ∧
    (∀ a v, a ≠ "" → resolveAction a v = .unresolved →
      controlOne up id (some a) v = (.badRequest ("Unknown action: " ++ a ++ "."), [])) ∧
    (∀ a v ops, a ≠ "" → (resolveAction a v).toOps = some ops →
      (∀ op ∈ ops, up id op.characteristicType op.value = .ok) →
      controlOne up id (some a) v = (.success, ops.map (mkCall id))) ∧
    (∀ a v pre f post e, a ≠ "" → (resolveAction a v).toOps = some (pre ++ f :: post) →
      (∀ op ∈ pre, up id op.characteristicType op.value = .ok) →
      up id f.characteristicType f.value = .fail e →
      controlOne up id (some a) v = (.controlError e, (pre ++ [f]).map (mkCall id))) := by
  refine ⟨fun v => rfl, ?_, ?_, ?_⟩
  · intro a v ha hres
    have h0 : (resolveAction a v).toOps = none := by rw [hres]; rfl
    simp [controlOne, optTruthy, ha, h0]
  · intro a v ops ha hres hok
    simp [controlOne, optTruthy, ha, hres, execOps_all_ok up id ops hok]
  · intro a v pre f post e ha hres hok hf
    simp [controlOne, optTruthy, ha, hres, execOps_first_fail up id pre f post e hok hf]

/-- Closed witness for `controlOne_spec`: a color action whose second
operation fails upstream yields a 502 carrying that error, with the
already-applied Hue write still in the trace. -/
theorem controlOne_spec_witness :
    controlOne upFailSat "dev1" (some "color") (.obj (some (.num 120)) (some (.num 50))) =
      (.controlError "boom",
        [⟨"dev1", "Hue", .n (.num 120)⟩, ⟨"dev1", "Saturation", .n (.num 50)⟩]) := by
  have h := (controlOne_spec upFailSat "dev1").2.2.2 "color"
    (.obj (some (.num 120)) (some (.num 50)))
    [⟨"Hue", .n (.num 120)⟩] ⟨"Saturation", .n (.num 50)⟩ [] "boom"
    (by decide) (by decide) (by decide) (by decide)
  simpa [mkCall] using h

/-- The batch route is the per-item processing mapped over the input in
order, with the upstream call traces concatenated in order. -/
theorem controlBatch_eq (up : String → String → OpVal → UpResult) (items : List BatchItem) :
    controlBatch up items =
      (items.map (fun it => (processItem up it).1),
        (items.map (fun it => (processItem up it).2)).flatten) := by
  induction items with
  | nil => rfl
  | cons item rest ih => simp [controlBatch, ih]

/-- C4: batch control processes the requests in input order; the result
sequence corresponds one-to-one, in order, to the input sequence; each
entry's outcome and upstream calls depend only on its own request (so no
entry's failure aborts later entries); and an entry whose action does
not resolve contributes a per-device failure result with zero upstream
calls attributable to it. -/
theorem controlBatch_spec (up : String → String → OpVal → UpResult)
    (items : List BatchItem) :
    (controlBatch up items).1 = items.map (fun it => (processItem up it).1) ∧
    (controlBatch up items).2 = (items.map (fun it => (processItem up it).2)).flatten ∧
    (controlBatch up items).1.length = items.length ∧
    (∀ it : BatchItem, resolveActionOpt it.action it.value = .unresolved →
      processItem up it =
        (⟨it.id, false, some ("Unknown action: " ++ it.action.getD "undefined")⟩, [])) := by
  refine ⟨?_, ?_, ?_, ?_⟩
  · rw [controlBatch_eq]
  · rw [controlBatch_eq]
  · rw [controlBatch_eq]
    simp
  · intro it hres
    have h0 : (resolveActionOpt it.action it.value).toOps = none := by rw [hres]; rfl
    simp [processItem, h0]

/-- Closed witness for `controlBatch_spec`: in a batch of three with an
unknown middle action, devices 1 and 3 still write, results keep input
order, and the middle entry fails with zero upstream calls. -/
theorem controlBatch_spec_witness :
    (controlBatch upOk batch3).1 =
      [⟨"d1", true, none⟩,
       ⟨"d2", false, some "Unknown action: dance"⟩,
       ⟨"d3", true, none⟩] ∧
    (controlBatch upOk batch3).2 =
      [⟨"d1", "On", .b true⟩, ⟨"d3", "Brightness", .n (.num 100)⟩] ∧
    processItem upOk ⟨"d2", some "dance", .num 1⟩ =
      (⟨"d2", false, some "Unknown action: dance"⟩, []) := by
  refine ⟨by decide, by decide, ?_⟩
  exact (controlBatch_spec upOk batch3).2.2.2 ⟨"d2", some "dance", .num 1⟩ (by decide)

/-- C10: "toggle" resolves, for every input value, to exactly the same
single operation as "on"/"power": the On characteristic with the
truthiness coercion of the value (no device state is read — the resolver
has no state input). -/
theorem toggle_equals_on :
    ∀ v : JsValue,
      resolveAction "toggle" v = resolveAction "on" v ∧
      resolveAction "toggle" v = resolveAction "power" v ∧
      resolveAction "toggle" v = .one ⟨"On", .b (truthy v)⟩ :=
  fun _ => ⟨rfl, rfl, rfl⟩

end OpenClaw
